import Mathlib

set_option linter.unusedVariables false

/-
Verification development for the AI-Powered-Product-Listing-Generator backend
(src/backend/auth.py, src/backend/database.py, src/backend/main.py).
The Python code is shallowly embedded: pure data flow becomes Lean functions,
the database becomes an explicit list of rows, the external AI model becomes
an oracle parameter (the parsed JSON of its two possible responses), and
exceptions become Except values.
-/

namespace ProductListing

/-- JSON values, as produced by json.loads on the model's response text. -/
inductive Json where
  | null : Json
  | bool : Bool → Json
  | num : Int → Json
  | str : String → Json
  | arr : List Json → Json
  | obj : List (String × Json) → Json

/-- Dictionary lookup on a parsed JSON object (Python dict.get). -/
def jlookup (kvs : List (String × Json)) (k : String) : Option Json :=
  (kvs.find? (fun p => p.1 == k)).map (fun p => p.2)

/-- Language literal from main.py: Lang = Literal["ru", "kz", "en"]. -/
inductive Lang where
  | ru : Lang
  | kz : Lang
  | en : Lang
deriving DecidableEq

/-- String form of a language tag, as serialized by pydantic. -/
def Lang.toStr : Lang → String
  | .ru => "ru"
  | .kz => "kz"
  | .en => "en"

/-- Embedding of the pydantic model UniversalProduct of main.py. -/
structure UniversalProduct where
  product_type : String
  brand : Option String
  model : Option String
  color : Option String
  material : Option String
  condition : Option String
  key_attributes : List String
  detected_text : List String
  uncertainty : List String

/-- Embedding of the pydantic model ListingVariant of main.py. -/
structure ListingVariant where
  title : String
  bullets : List String
  description : String
  keywords : List String
  attributes : List (String × Json)
  compliance_todos : List String
  uncertainty : List String

/-- Embedding of the pydantic model MarketplacePack of main.py. -/
structure MarketplacePack where
  olx : ListingVariant
  wildberries : ListingVariant
  ozon : ListingVariant

/-- Embedding of the pydantic model ListingBundle of main.py. -/
structure ListingBundle where
  lang : Lang
  universal : UniversalProduct
  listings : MarketplacePack

/-- Required string field of a JSON object (pydantic: str). -/
def reqStr (o : List (String × Json)) (k : String) : Except String String :=
  match jlookup o k with
  | some (.str s) => .ok s
  | some _ => .error (k ++ ": input should be a valid string")
  | none => .error (k ++ ": field required")

/-- Optional string field (pydantic: Optional[str] with default None). -/
def optStr (o : List (String × Json)) (k : String) : Except String (Option String) :=
  match jlookup o k with
  | some (.str s) => .ok (some s)
  | some .null => .ok none
  | some _ => .error (k ++ ": input should be a valid string")
  | none => .ok none

/-- Every element of a JSON array must be a string (pydantic: List[str]). -/
def strElems : List Json → Except String (List String)
  | [] => .ok []
  | .str s :: rest => (strElems rest).map (fun l => s :: l)
  | _ :: _ => .error "list item: input should be a valid string"

/-- List-of-strings field with default_factory=list: missing means []. -/
def defStrList (o : List (String × Json)) (k : String) : Except String (List String) :=
  match jlookup o k with
  | none => .ok []
  | some (.arr xs) => strElems xs
  | some _ => .error (k ++ ": input should be a valid list")

/-- Required list-of-strings field (pydantic: List[str], no default). -/
def reqStrList (o : List (String × Json)) (k : String) : Except String (List String) :=
  match jlookup o k with
  | none => .error (k ++ ": field required")
  | some (.arr xs) => strElems xs
  | some _ => .error (k ++ ": input should be a valid list")

/-- Open attribute map with default_factory=dict (pydantic: Dict[str, Any]). -/
def defAttrMap (o : List (String × Json)) (k : String) : Except String (List (String × Json)) :=
  match jlookup o k with
  | none => .ok []
  | some (.obj kvs) => .ok kvs
  | some _ => .error (k ++ ": input should be a valid dictionary")

/-- Validation of the lang literal field. -/
def validateLang (o : List (String × Json)) : Except String Lang :=
  match jlookup o "lang" with
  | some (.str "ru") => .ok .ru
  | some (.str "kz") => .ok .kz
  | some (.str "en") => .ok .en
  | some _ => .error "lang: input should be ru, kz or en"
  | none => .error "lang: field required"

/-- Validation of a UniversalProduct sub-object. -/
def validateUniversal (j : Json) : Except String UniversalProduct :=
  match j with
  | .obj o => do
    let pt ← reqStr o "product_type"
    let brand ← optStr o "brand"
    let model ← optStr o "model"
    let color ← optStr o "color"
    let material ← optStr o "material"
    let condition ← optStr o "condition"
    let ka ← defStrList o "key_attributes"
    let dt ← defStrList o "detected_text"
    let un ← defStrList o "uncertainty"
    .ok ⟨pt, brand, model, color, material, condition, ka, dt, un⟩
  | _ => .error "universal: input should be an object"

/-- Validation of a ListingVariant sub-object. -/
def validateVariant (name : String) (j : Json) : Except String ListingVariant :=
  match j with
  | .obj o => do
    let title ← reqStr o "title"
    let bullets ← reqStrList o "bullets"
    let description ← reqStr o "description"
    let keywords ← reqStrList o "keywords"
    let attributes ← defAttrMap o "attributes"
    let ct ← defStrList o "compliance_todos"
    let un ← defStrList o "uncertainty"
    .ok ⟨title, bullets, description, keywords, attributes, ct, un⟩
  | _ => .error (name ++ ": input should be an object")

/-- Validation of the MarketplacePack sub-object: exactly the three keys. -/
def validatePack (j : Json) : Except String MarketplacePack :=
  match j with
  | .obj o => do
    let olx ← match jlookup o "olx" with
      | some v => validateVariant "olx" v
      | none => .error "olx: field required"
    let wb ← match jlookup o "wildberries" with
      | some v => validateVariant "wildberries" v
      | none => .error "wildberries: field required"
    let oz ← match jlookup o "ozon" with
      | some v => validateVariant "ozon" v
      | none => .error "ozon: field required"
    .ok ⟨olx, wb, oz⟩
  | _ => .error "listings: input should be an object"

/-- ListingBundle.model_validate on a parsed JSON document. -/
def validateListingBundle (j : Json) : Except String ListingBundle :=
  match j with
  | .obj o => do
    let lang ← validateLang o
    let universal ← match jlookup o "universal" with
      | some v => validateUniversal v
      | none => .error "universal: field required"
    let listings ← match jlookup o "listings" with
      | some v => validatePack v
      | none => .error "listings: field required"
    .ok ⟨lang, universal, listings⟩
  | _ => .error "input should be an object"

/-- JSON form of an optional string (model_dump). -/
def optStrJson : Option String → Json
  | none => .null
  | some s => .str s

/-- JSON form of a string list (model_dump). -/
def strListJson (l : List String) : Json :=
  .arr (l.map (fun s => .str s))

/-- UniversalProduct.model_dump. -/
def universalToJson (u : UniversalProduct) : Json :=
  .obj [("product_type", .str u.product_type),
        ("brand", optStrJson u.brand),
        ("model", optStrJson u.model),
        ("color", optStrJson u.color),
        ("material", optStrJson u.material),
        ("condition", optStrJson u.condition),
        ("key_attributes", strListJson u.key_attributes),
        ("detected_text", strListJson u.detected_text),
        ("uncertainty", strListJson u.uncertainty)]

/-- ListingVariant.model_dump. -/
def variantToJson (v : ListingVariant) : Json :=
  .obj [("title", .str v.title),
        ("bullets", strListJson v.bullets),
        ("description", .str v.description),
        ("keywords", strListJson v.keywords),
        ("attributes", .obj v.attributes),
        ("compliance_todos", strListJson v.compliance_todos),
        ("uncertainty", strListJson v.uncertainty)]

/-- ListingBundle.model_dump, the document persisted in result_json. -/
def bundleToJson (b : ListingBundle) : Json :=
  .obj [("lang", .str b.lang.toStr),
        ("universal", universalToJson b.universal),
        ("listings", .obj [("olx", variantToJson b.listings.olx),
                           ("wildberries", variantToJson b.listings.wildberries),
                           ("ozon", variantToJson b.listings.ozon)])]

/-- An uploaded multipart file as seen by the generate endpoint:
its (possibly absent or empty) client-supplied filename, its bytes, and
its declared content type. -/
structure UploadFile where
  filename : Option String
  data : List Nat
  content_type : Option String

/-- Truthiness of Python "f.filename or default": None and "" both fall back. -/
def filenameOr (f : UploadFile) (fallback : String) : String :=
  match f.filename with
  | none => fallback
  | some s => if s = "" then fallback else s

/-- Filenames captured by generate after truncation:
[f.filename or f"image_{i}" for i, f in enumerate(files)]. -/
def captureFilenames (files : List UploadFile) : List String :=
  files.enum.map (fun p => filenameOr p.2 ("image_" ++ toString p.1))

/-- Arguments passed to database.save_generation by the generate endpoint. -/
structure SaveArgs where
  user_id : Nat
  lang : String
  hint : Option String
  image_count : Nat
  image_filenames : List String
  result_json : Json
  product_type : String
  brand : Option String
  generation_time_ms : Nat

/-- Observable outcome of one call to the generate endpoint: the HTTP status,
the response bundle or error detail, how many repair calls went to the model,
how many images were attached to the primary model call, and the
save_generation invocations (attempted, and those that did not raise). -/
structure GenOutcome where
  status : Nat
  bundle : Option ListingBundle
  detail : Option String
  repairCalls : Nat
  imagesSent : Nat
  saveCalls : List SaveArgs
  saved : List SaveArgs

/-- Projection of an outcome to what the HTTP caller can observe. -/
def GenOutcome.response (o : GenOutcome) : Nat × Option ListingBundle × Option String :=
  (o.status, o.bundle, o.detail)

/-- Result of json.loads plus ListingBundle.model_validate on one model
response; the oracle gives the parsed JSON, or none when the response text
was not valid JSON (json.JSONDecodeError). -/
def parseValidate (resp : Option Json) : Except String ListingBundle :=
  match resp with
  | none => .error "Expecting value: line 1 column 1 (char 0)"
  | some j => validateListingBundle j

/-- Predicate for a non-empty uploaded file ("if not data: continue" skips
empty reads before attaching the image to the model call). -/
def nonemptyFile (f : UploadFile) : Bool :=
  f.data ≠ []

/-- The save_generation invocations made on a success path of generate: one
call when the caller is authenticated, none otherwise; files is the
already-truncated file list. -/
def saveCallsOf (cu : Option Nat) (lang : Lang) (hint : Option String)
    (files : List UploadFile) (b : ListingBundle) (ms : Nat) : List SaveArgs :=
  match cu with
  | some uid => [⟨uid, lang.toStr, hint, files.length, captureFilenames files,
                  bundleToJson b, b.universal.product_type, b.universal.brand, ms⟩]
  | none => []

/-- The generate endpoint of main.py (POST /api/generate), embedded.
Parameters: maxImages is MAX_IMAGES; primary and repair are the parsed JSON
of the model's primary and repair responses (none = invalid JSON text);
saveFails says whether save_generation would raise; ms1 and ms2 are the
measured latencies of the primary-path and repair-path successes. -/
def generate (maxImages : Nat) (primary repair : Option Json) (saveFails : Bool)
    (ms1 ms2 : Nat) (lang : Lang) (files : List UploadFile) (hint : Option String)
    (current_user : Option Nat) : GenOutcome :=
  if files.isEmpty then
    ⟨400, none, some "No images provided", 0, 0, [], []⟩
  else
    let files := files.take maxImages
    let image_filenames := captureFilenames files
    let sent := (files.filter nonemptyFile).length
    if 1 + sent < 2 then
      ⟨400, none, some "Images are empty or unsupported", 0, sent, [], []⟩
    else
      match parseValidate primary with
      | .ok b =>
        let calls := saveCallsOf current_user lang hint files b ms1
        ⟨200, some b, none, 0, sent, calls, if saveFails then [] else calls⟩
      | .error _ =>
        match parseValidate repair with
        | .ok b =>
          let calls := saveCallsOf current_user lang hint files b ms2
          ⟨200, some b, none, 1, sent, calls, if saveFails then [] else calls⟩
        | .error e2 =>
          ⟨500, none, some ("Model output validation failed: " ++ e2), 1, sent, [], []⟩

/-- A row of the generation_history table. -/
structure GenRecord where
  id : Nat
  user_id : Nat
  lang : String
  hint : Option String
  image_count : Nat
  image_filenames : List String
  result_json : Json
  product_type : Option String
  brand : Option String
  created_at : Nat
  generation_time_ms : Option Nat

/-- database.get_generation_by_id: select the row matching both the record id
and the owning user id (WHERE id = %s AND user_id = %s). -/
def get_generation_by_id (db : List GenRecord) (generation_id : Nat) (user_id : Nat) :
    Option GenRecord :=
  db.find? (fun r => r.id == generation_id && r.user_id == user_id)

/-- database.delete_generation: delete rows matching both the record id and the
owning user id; the boolean says whether a row was deleted (RETURNING id).
The first component is the table after the delete. -/
def delete_generation (db : List GenRecord) (generation_id : Nat) (user_id : Nat) :
    List GenRecord × Bool :=
  (db.filter (fun r => !(r.id == generation_id && r.user_id == user_id)),
   db.any (fun r => r.id == generation_id && r.user_id == user_id))

/-- Ordering used by ORDER BY created_at DESC. -/
def newerFirst (a b : GenRecord) : Prop :=
  b.created_at ≤ a.created_at

instance : DecidableRel newerFirst := fun a b => Nat.decLe b.created_at a.created_at

instance : IsTotal GenRecord newerFirst :=
  ⟨fun a b => (Nat.le_total b.created_at a.created_at)⟩

instance : IsTrans GenRecord newerFirst :=
  ⟨fun _ _ _ hab hbc => Nat.le_trans hbc hab⟩

/-- database.get_user_history: the user's rows ordered newest created_at first,
skipping offset rows and returning at most limit of them, plus the total count
of the user's rows. -/
def get_user_history (db : List GenRecord) (user_id : Nat) (limit offset : Nat) :
    List GenRecord × Nat :=
  let mine := db.filter (fun r => r.user_id == user_id)
  (((mine.insertionSort newerFirst).drop offset).take limit, mine.length)

/-- Response of GET /api/history. -/
structure HistoryListResponse where
  items : List GenRecord
  total : Nat
  page : Nat
  limit : Nat

/-- The list_history endpoint of main.py (GET /api/history): FastAPI rejects
page < 1 or limit outside 1..100 before the handler runs (ge/le constraints),
modelled as none; otherwise offset = (page - 1) * limit. -/
def list_history (db : List GenRecord) (current_user_id : Nat) (page limit : Nat) :
    Option HistoryListResponse :=
  if 1 ≤ page ∧ 1 ≤ limit ∧ limit ≤ 100 then
    let offset := (page - 1) * limit
    let res := get_user_history db current_user_id limit offset
    some ⟨res.1, res.2, page, limit⟩
  else
    none

/-- Little-endian decimal digits of a natural number. -/
def natDigitsRev (n : Nat) : List Nat :=
  if _h : n < 10 then [n] else n % 10 :: natDigitsRev (n / 10)
decreasing_by
  exact Nat.div_lt_self (by omega) (by omega)

/-- Decimal digit as a character. -/
def digitChar (d : Nat) : Char :=
  Char.ofNat (48 + d)

/-- Decimal representation of a natural number, as a character list. -/
def natDecChars (n : Nat) : List Char :=
  (natDigitsRev n).reverse.map digitChar

/-- Characters of Python str(i) for an integer i. -/
def intDecChars (i : Int) : List Char :=
  if i < 0 then '-' :: natDecChars i.natAbs else natDecChars i.natAbs

/-- Python str(i) for an integer i. -/
def intDecimal (i : Int) : String :=
  String.mk (intDecChars i)

/-- Numeric value of a decimal digit character. -/
def digitVal (c : Char) : Nat :=
  c.toNat - 48

/-- Value of a big-endian list of decimal digit characters. -/
def digitsVal (l : List Char) : Nat :=
  l.foldl (fun a c => 10 * a + digitVal c) 0

/-- Parse a non-empty all-digit character list, else fail. -/
def pyDigits? (l : List Char) : Option Nat :=
  if l.isEmpty then none
  else if l.all Char.isDigit then some (digitsVal l) else none

/-- Strip leading and trailing whitespace (Python str.strip, as int() does). -/
def trimChars (l : List Char) : List Char :=
  ((l.dropWhile Char.isWhitespace).reverse.dropWhile Char.isWhitespace).reverse

/-- Python int(s) on a character list: optional sign then decimal digits,
whitespace-stripped; none models ValueError. -/
def pyIntCore (l : List Char) : Option Int :=
  if (trimChars l).headD ' ' = '-' then
    (pyDigits? (trimChars l).tail).map (fun (n : Nat) => -(n : Int))
  else if (trimChars l).headD ' ' = '+' then
    (pyDigits? (trimChars l).tail).map (fun (n : Nat) => (n : Int))
  else
    (pyDigits? (trimChars l)).map (fun (n : Nat) => (n : Int))

/-- Python int(s) on a string; none models ValueError. -/
def pyInt? (s : String) : Option Int :=
  pyIntCore s.data

/-- A JWT as the jose library sees it: the claims payload, the key whose
signature the token carries, and whether the compact encoding is well formed. -/
structure Token where
  payload : List (String × Json)
  secret : String
  wellFormed : Bool

/-- jose validates that a present sub claim is a string (JWTClaimsError,
a subclass of JWTError, otherwise). -/
def subClaimOk (payload : List (String × Json)) : Bool :=
  match jlookup payload "sub" with
  | some (.str _) => true
  | some _ => false
  | none => true

/-- jose validates a present exp claim: it must be numeric and not in the
past (expired when exp < now, with the default zero leeway); an absent exp
claim is fine. -/
def expClaimOk (payload : List (String × Json)) (now : Int) : Bool :=
  match jlookup payload "exp" with
  | none => true
  | some (.num e) => decide (now ≤ e)
  | some _ => false

/-- jose jwt.decode(token, key, algorithms=["HS256"]) evaluated at time now:
raises JWTError (modelled as Except.error) on a malformed token, a signature
made with a different key, an expired or non-numeric exp claim, or a present
non-string sub claim; otherwise returns the claims payload. -/
def jwtDecode (token : Token) (key : String) (now : Int) :
    Except Unit (List (String × Json)) :=
  if !token.wellFormed then .error ()
  else if token.secret ≠ key then .error ()
  else if !(expClaimOk token.payload now) then .error ()
  else if !(subClaimOk token.payload) then .error ()
  else .ok token.payload

/-- JWT_EXPIRATION_HOURS = 24 in auth.py. -/
def JWT_EXPIRATION_HOURS : Nat := 24

/-- Claims payload built by create_access_token: sub = str(user_id),
exp = now + 24h, iat = now. -/
def createPayload (now : Int) (user_id : Int) : List (String × Json) :=
  [("sub", .str (intDecimal user_id)),
   ("exp", .num (now + (JWT_EXPIRATION_HOURS : Int) * 3600)),
   ("iat", .num now)]

/-- auth.create_access_token: claims sub = str(user_id), exp = now + 24h,
iat = now, signed with the process secret; returns the token and
expires_in = int(timedelta(hours=24).total_seconds()). -/
def create_access_token (key : String) (now : Int) (user_id : Int) : Token × Nat :=
  (⟨createPayload now user_id, key, true⟩, JWT_EXPIRATION_HOURS * 3600)

/-- auth.decode_access_token: the except-JWTError handler turns any jose
failure into None, and a missing sub claim returns None; but int(sub) on a
string that is not an integer literal raises ValueError, which the except
clause does not catch (a non-string sub cannot reach int(), jose has already
rejected it; Python would raise TypeError there). -/
def decode_access_token (key : String) (now : Int) (token : Token) :
    Except String (Option Int) :=
  match jwtDecode token key now with
  | .error _ => .ok none
  | .ok payload =>
    match jlookup payload "sub" with
    | none => .ok none
    | some (.str s) =>
      match pyInt? s with
      | some n => .ok (some n)
      | none => .error "ValueError"
    | some _ => .error "TypeError"

/-- UTF-8 bytes of one character. -/
def charUtf8 (c : Char) : List Nat :=
  let n := c.toNat
  if n < 128 then [n]
  else if n < 2048 then [192 + n / 64, 128 + n % 64]
  else if n < 65536 then [224 + n / 4096, 128 + n / 64 % 64, 128 + n % 64]
  else [240 + n / 262144, 128 + n / 4096 % 64, 128 + n / 64 % 64, 128 + n % 64]

/-- UTF-8 bytes of a string. -/
def strUtf8 (s : String) : List Nat :=
  (s.data.map charUtf8).flatten

/-- Bytes bcrypt actually digests under passlib's default configuration:
the UTF-8 encoding of the password silently truncated to 72 bytes
(bcrypt truncate_size = 72, truncate_error = False). -/
def bcryptInput (password : String) : List Nat :=
  (strUtf8 password).take 72

/-- A stored password-hash string: either a well-formed bcrypt hash (its salt
plus the digest, modelled by the bytes the digest commits to, bcrypt digests
being collision-free for fixed salt), or text in no recognizable hash format. -/
inductive StoredHash where
  | bcrypt (salt : Nat) (digestOf : List Nat) : StoredHash
  | malformed (text : String) : StoredHash

/-- auth.hash_password: pwd_context.hash with the bcrypt scheme and a fresh
random salt; the salt is a parameter of the embedding. -/
def hash_password (salt : Nat) (password : String) : StoredHash :=
  .bcrypt salt (bcryptInput password)

/-- auth.verify_password: pwd_context.verify returns whether the digests match
when the stored hash is a recognizable bcrypt hash; on an unrecognizable hash
passlib raises UnknownHashError (a ValueError), and verify_password has no
handler for it. -/
def verify_password (plain_password : String) (hashed_password : StoredHash) :
    Except String Bool :=
  match hashed_password with
  | .bcrypt _ digestOf => .ok (bcryptInput plain_password == digestOf)
  | .malformed _ => .error "UnknownHashError"

/-- MAX_IMAGES default: int(os.environ.get("MAX_IMAGES", "8")). -/
def MAX_IMAGES : Nat := 8

/-- JWT_SECRET_KEY default of auth.py. -/
def JWT_SECRET_KEY : String := "change-me-in-production"

/-- A concrete schema-conforming listing variant document. -/
def sampleVariantJson : Json :=
  .obj [("title", .str "T"), ("bullets", .arr [.str "b1"]),
        ("description", .str "D"), ("keywords", .arr [.str "k"]),
        ("attributes", .obj []), ("compliance_todos", .arr []),
        ("uncertainty", .arr [])]

/-- A concrete schema-conforming ListingBundle document. -/
def sampleBundleJson : Json :=
  .obj [("lang", .str "ru"),
        ("universal", .obj [("product_type", .str "mug"), ("brand", .str "Acme"),
                            ("model", .null), ("color", .null), ("material", .null),
                            ("condition", .null), ("key_attributes", .arr []),
                            ("detected_text", .arr []), ("uncertainty", .arr [])]),
        ("listings", .obj [("olx", sampleVariantJson),
                           ("wildberries", sampleVariantJson),
                           ("ozon", sampleVariantJson)])]

/-- The variant sampleVariantJson validates to. -/
def sampleVariant : ListingVariant :=
  ⟨"T", ["b1"], "D", ["k"], [], [], []⟩

/-- The bundle sampleBundleJson validates to. -/
def sampleBundle : ListingBundle :=
  ⟨.ru, ⟨"mug", some "Acme", none, none, none, none, [], [], []⟩,
   ⟨sampleVariant, sampleVariant, sampleVariant⟩⟩

/-- A concrete non-empty uploaded file. -/
def fileA : UploadFile :=
  ⟨some "a.jpg", [1], some "image/jpeg"⟩

/-- A concrete zero-byte uploaded file with no client filename. -/
def fileEmpty : UploadFile :=
  ⟨none, [], none⟩

/-- Nine uploaded files, the first one zero-byte: one more than MAX_IMAGES. -/
def c7files : List UploadFile :=
  fileEmpty :: List.replicate 8 fileA

/-- A concrete history row for user 7, keyed and timestamped by k. -/
def c6rec (k : Nat) : GenRecord :=
  ⟨k, 7, "ru", none, 1, [], .null, none, none, k, none⟩

/-- Twenty-five history rows for user 7. -/
def db25 : List GenRecord :=
  (List.range 25).map c6rec

/-- A history row with id 1 owned by user 10. -/
def c1ra : GenRecord :=
  ⟨1, 10, "ru", none, 0, [], .null, none, none, 0, none⟩

/-- A history row with id 2 owned by user 20. -/
def c1rb : GenRecord :=
  ⟨2, 20, "en", none, 0, [], .null, none, none, 1, none⟩

/-- A two-row history table with distinct ids and owners. -/
def c1db : List GenRecord :=
  [c1ra, c1rb]

/-- A token signed with the development secret whose subject claim is a
string that is not an integer literal. -/
def c4token : Token :=
  ⟨[("sub", .str "abc"), ("exp", .num 99999)], JWT_SECRET_KEY, true⟩

/-- A well-formed token signed with the development secret whose expiry
claim is the instant 5. -/
def c8expired : Token :=
  ⟨[("sub", .str "42"), ("exp", .num 5)], JWT_SECRET_KEY, true⟩

/-- A 73-character password: 72 copies of a followed by x. -/
def c9p : String :=
  String.mk (List.replicate 72 'a' ++ ['x'])

/-- A different 73-character password agreeing with c9p on the first 72
bytes: 72 copies of a followed by y. -/
def c9q : String :=
  String.mk (List.replicate 72 'a' ++ ['y'])

/-
Helper lemmas.
-/

theorem digitVal_digitChar (d : Nat) (h : d < 10) : digitVal (digitChar d) = d := by
  interval_cases d <;> decide

theorem isDigit_digitChar (d : Nat) (h : d < 10) : (digitChar d).isDigit = true := by
  interval_cases d <;> decide

theorem not_ws_digitChar (d : Nat) (h : d < 10) : (digitChar d).isWhitespace = false := by
  interval_cases d <;> decide

theorem natDigitsRev_ne_nil (n : Nat) : natDigitsRev n ≠ [] := by
  rw [natDigitsRev]
  split <;> simp

theorem natDigitsRev_lt (n : Nat) : ∀ d ∈ natDigitsRev n, d < 10 := by
  induction n using Nat.strong_induction_on with
  | _ n ih =>
    rw [natDigitsRev]
    split
    · next h =>
      intro d hd
      simp only [List.mem_singleton] at hd
      omega
    · next h =>
      intro d hd
      rcases List.mem_cons.mp hd with h1 | h2
      · subst h1
        exact Nat.mod_lt _ (by omega)
      · exact ih (n / 10) (Nat.div_lt_self (by omega) (by omega)) d h2

theorem digitsVal_append (l : List Char) (c : Char) :
    digitsVal (l ++ [c]) = 10 * digitsVal l + digitVal c := by
  simp [digitsVal, List.foldl_append]

theorem digitsVal_natDecChars (n : Nat) : digitsVal (natDecChars n) = n := by
  induction n using Nat.strong_induction_on with
  | _ n ih =>
    rw [natDecChars, natDigitsRev]
    split
    · next h =>
      simp [digitsVal, digitVal_digitChar n h]
    · next h =>
      rw [List.reverse_cons, List.map_append, List.map_singleton, digitsVal_append]
      rw [show (natDigitsRev (n / 10)).reverse.map digitChar = natDecChars (n / 10) from rfl]
      rw [ih (n / 10) (Nat.div_lt_self (by omega) (by omega))]
      rw [digitVal_digitChar _ (Nat.mod_lt _ (by omega))]
      omega

theorem natDecChars_ne_nil (n : Nat) : natDecChars n ≠ [] := by
  rw [natDecChars]
  simp [natDigitsRev_ne_nil n]

theorem mem_natDecChars_isDigit (n : Nat) : ∀ c ∈ natDecChars n, c.isDigit = true := by
  intro c hc
  rw [natDecChars] at hc
  simp only [List.mem_map, List.mem_reverse] at hc
  obtain ⟨d, hd, rfl⟩ := hc
  exact isDigit_digitChar d (natDigitsRev_lt n d hd)

theorem mem_natDecChars_not_ws (n : Nat) : ∀ c ∈ natDecChars n, c.isWhitespace = false := by
  intro c hc
  rw [natDecChars] at hc
  simp only [List.mem_map, List.mem_reverse] at hc
  obtain ⟨d, hd, rfl⟩ := hc
  exact not_ws_digitChar d (natDigitsRev_lt n d hd)

theorem dropWhile_of_none (p : Char → Bool) (l : List Char)
    (h : ∀ c ∈ l, p c = false) : l.dropWhile p = l := by
  cases l with
  | nil => rfl
  | cons a as =>
    rw [List.dropWhile_cons, h a (List.mem_cons_self a as)]
    simp

theorem trimChars_of_no_ws (l : List Char)
    (h : ∀ c ∈ l, c.isWhitespace = false) : trimChars l = l := by
  rw [trimChars, dropWhile_of_none _ _ h, dropWhile_of_none, List.reverse_reverse]
  intro c hc
  exact h c (List.mem_reverse.mp hc)

theorem pyDigits_natDecChars (n : Nat) : pyDigits? (natDecChars n) = some n := by
  rw [pyDigits?, if_neg, if_pos (List.all_eq_true.mpr (mem_natDecChars_isDigit n)),
    digitsVal_natDecChars]
  simp [List.isEmpty_iff, natDecChars_ne_nil n]

theorem isDigit_ne_minus (c : Char) (h : c.isDigit = true) : ¬ c = '-' := by
  intro hc
  subst hc
  exact absurd h (by decide)

theorem isDigit_ne_plus (c : Char) (h : c.isDigit = true) : ¬ c = '+' := by
  intro hc
  subst hc
  exact absurd h (by decide)

theorem natDecChars_headD_isDigit (m : Nat) : ((natDecChars m).headD ' ').isDigit = true := by
  cases h : natDecChars m with
  | nil => exact absurd h (natDecChars_ne_nil m)
  | cons c cs =>
    rw [List.headD_cons]
    refine mem_natDecChars_isDigit m c ?_
    rw [h]
    exact List.mem_cons_self c cs

theorem pyIntCore_natDecChars (m : Nat) :
    pyIntCore (natDecChars m) = some (m : Int) := by
  rw [pyIntCore]
  simp only [trimChars_of_no_ws _ (mem_natDecChars_not_ws m)]
  rw [if_neg (isDigit_ne_minus _ (natDecChars_headD_isDigit m)),
    if_neg (isDigit_ne_plus _ (natDecChars_headD_isDigit m)),
    pyDigits_natDecChars]
  rfl

theorem pyInt_intDecimal (i : Int) : pyInt? (intDecimal i) = some i := by
  rw [pyInt?, intDecimal]
  rw [show (String.mk (intDecChars i)).data = intDecChars i from rfl]
  rw [intDecChars]
  split
  · next hneg =>
    rw [pyIntCore]
    have htrim : trimChars ('-' :: natDecChars i.natAbs) = '-' :: natDecChars i.natAbs := by
      refine trimChars_of_no_ws _ ?_
      intro c hc
      rcases List.mem_cons.mp hc with h1 | h2
      · subst h1; decide
      · exact mem_natDecChars_not_ws _ c h2
    rw [htrim]
    simp only [List.headD_cons, List.tail_cons, reduceIte]
    rw [pyDigits_natDecChars]
    show some (-(i.natAbs : Int)) = some i
    congr 1
    omega
  · next hpos =>
    rw [pyIntCore_natDecChars]
    congr 1
    omega

theorem jwtDecode_ok_payload (t : Token) (key : String) (now : Int)
    (pl : List (String × Json)) (h : jwtDecode t key now = .ok pl) :
    pl = t.payload ∧ subClaimOk t.payload = true := by
  rw [jwtDecode] at h
  split_ifs at h with h1 h2 h3 h4
  all_goals try exact Except.noConfusion h
  injection h with h5
  refine ⟨h5.symm, ?_⟩
  simpa using h4

theorem decode_token_expired (key : String) (now : Int) (t : Token) (e : Int)
    (hexp : jlookup t.payload "exp" = some (.num e)) (hlt : e < now) :
    decode_access_token key now t = .ok none := by
  have hexpok : expClaimOk t.payload now = false := by
    simp only [expClaimOk, hexp, decide_eq_false_iff_not]
    omega
  have hjwt : jwtDecode t key now = .error () := by
    rw [jwtDecode]
    split_ifs with h1 h2 h3 h4 <;> first | rfl | (exfalso; simp [hexpok] at h3)
  rw [decode_access_token, hjwt]

theorem decode_wrong_key (key2 : String) (now : Int) (t : Token)
    (hk : t.secret ≠ key2) : decode_access_token key2 now t = .ok none := by
  have hjwt : jwtDecode t key2 now = .error () := by
    rw [jwtDecode]
    split_ifs with h1 h2 h3 h4 <;> first | rfl | exact absurd hk h2
  rw [decode_access_token, hjwt]

theorem jwtDecode_create (key : String) (now : Int) (u : Int) :
    jwtDecode (create_access_token key now u).1 key now = .ok (createPayload now u) := by
  have hexpok : expClaimOk (createPayload now u) now = true := by
    have h1 : expClaimOk (createPayload now u) now =
        decide (now ≤ now + (JWT_EXPIRATION_HOURS : Int) * 3600) := rfl
    rw [h1, decide_eq_true_iff]
    have h2 : (JWT_EXPIRATION_HOURS : Int) = 24 := rfl
    omega
  have hsubok : subClaimOk (createPayload now u) = true := rfl
  rw [create_access_token, jwtDecode]
  rw [show (!(Token.mk (createPayload now u) key true).wellFormed) = false from rfl]
  rw [if_neg (show ¬ (false = true) from fun h => Bool.noConfusion h)]
  rw [if_neg (show ¬ ((Token.mk (createPayload now u) key true).secret ≠ key) from
    fun h => h rfl)]
  rw [show (Token.mk (createPayload now u) key true).payload = createPayload now u from rfl]
  rw [hexpok, hsubok]
  rfl

theorem decode_create (key : String) (now : Int) (u : Int) :
    decode_access_token key now (create_access_token key now u).1 = .ok (some u) := by
  rw [decode_access_token, jwtDecode_create]
  have hsub : jlookup (createPayload now u) "sub" = some (.str (intDecimal u)) := rfl
  simp only [hsub, pyInt_intDecimal]

theorem generate_saveCalls_shape (m : Nat) (p r : Option Json) (sf : Bool) (ms1 ms2 : Nat)
    (lang : Lang) (files : List UploadFile) (hint : Option String) (cu : Option Nat) :
    ∀ a ∈ (generate m p r sf ms1 ms2 lang files hint cu).saveCalls,
      a.image_count = (files.take m).length ∧
      a.image_filenames = captureFilenames (files.take m) := by
  intro a ha
  simp only [generate] at ha
  split at ha
  · simp at ha
  · split at ha
    · simp at ha
    · split at ha
      · next b heq =>
        simp [saveCallsOf] at ha
        cases cu with
        | none => simp at ha
        | some uid =>
          simp at ha
          subst ha
          exact ⟨by simp, rfl⟩
      · split at ha
        · next b heq =>
          simp [saveCallsOf] at ha
          cases cu with
          | none => simp at ha
          | some uid =>
            simp at ha
            subst ha
            exact ⟨by simp, rfl⟩
        · simp at ha

theorem generate_imagesSent (m : Nat) (p r : Option Json) (sf : Bool) (ms1 ms2 : Nat)
    (lang : Lang) (files : List UploadFile) (hint : Option String) (cu : Option Nat)
    (hne : files.isEmpty = false) :
    (generate m p r sf ms1 ms2 lang files hint cu).imagesSent =
      ((files.take m).filter nonemptyFile).length := by
  simp only [generate, hne, Bool.false_eq_true, if_false]
  split
  · rfl
  · split
    · rfl
    · split
      · rfl
      · rfl

theorem generate_primary_ok (m : Nat) (p r : Option Json) (sf : Bool) (ms1 ms2 : Nat)
    (lang : Lang) (files : List UploadFile) (hint : Option String) (cu : Option Nat)
    (b : ListingBundle)
    (hne : files.isEmpty = false)
    (hone : 1 ≤ ((files.take m).filter nonemptyFile).length)
    (hok : parseValidate p = .ok b) :
    generate m p r sf ms1 ms2 lang files hint cu =
      ⟨200, some b, none, 0, ((files.take m).filter nonemptyFile).length,
       saveCallsOf cu lang hint (files.take m) b ms1,
       if sf then [] else saveCallsOf cu lang hint (files.take m) b ms1⟩ := by
  simp only [generate, hne, Bool.false_eq_true, if_false]
  rw [if_neg (by omega : ¬ (1 + ((files.take m).filter nonemptyFile).length < 2))]
  rw [hok]

theorem generate_repair_ok (m : Nat) (p r : Option Json) (sf : Bool) (ms1 ms2 : Nat)
    (lang : Lang) (files : List UploadFile) (hint : Option String) (cu : Option Nat)
    (e : String) (b : ListingBundle)
    (hne : files.isEmpty = false)
    (hone : 1 ≤ ((files.take m).filter nonemptyFile).length)
    (hfail : parseValidate p = .error e)
    (hok2 : parseValidate r = .ok b) :
    generate m p r sf ms1 ms2 lang files hint cu =
      ⟨200, some b, none, 1, ((files.take m).filter nonemptyFile).length,
       saveCallsOf cu lang hint (files.take m) b ms2,
       if sf then [] else saveCallsOf cu lang hint (files.take m) b ms2⟩ := by
  simp only [generate, hne, Bool.false_eq_true, if_false]
  rw [if_neg (by omega : ¬ (1 + ((files.take m).filter nonemptyFile).length < 2))]
  rw [hfail, hok2]

theorem generate_repair_fail (m : Nat) (p r : Option Json) (sf : Bool) (ms1 ms2 : Nat)
    (lang : Lang) (files : List UploadFile) (hint : Option String) (cu : Option Nat)
    (e e2 : String)
    (hne : files.isEmpty = false)
    (hone : 1 ≤ ((files.take m).filter nonemptyFile).length)
    (hfail : parseValidate p = .error e)
    (hfail2 : parseValidate r = .error e2) :
    generate m p r sf ms1 ms2 lang files hint cu =
      ⟨500, none, some ("Model output validation failed: " ++ e2), 1,
       ((files.take m).filter nonemptyFile).length, [], []⟩ := by
  simp only [generate, hne, Bool.false_eq_true, if_false]
  rw [if_neg (by omega : ¬ (1 + ((files.take m).filter nonemptyFile).length < 2))]
  rw [hfail, hfail2]

theorem generate_take (m : Nat) (p r : Option Json) (sf : Bool) (ms1 ms2 : Nat)
    (lang : Lang) (files : List UploadFile) (hint : Option String) (cu : Option Nat)
    (hm : 1 ≤ m) (hne : files.isEmpty = false) :
    generate m p r sf ms1 ms2 lang files hint cu =
      generate m p r sf ms1 ms2 lang (files.take m) hint cu := by
  have hne2 : (files.take m).isEmpty = false := by
    cases files with
    | nil => simp at hne
    | cons f fs =>
      cases m with
      | zero => omega
      | succ k => rfl
  simp only [generate, hne, hne2, List.take_take, Nat.min_self]

/-
Claim theorems.
-/

/-- C1: for every stored generation record owned by user A and every user id
B ≠ A (ids being unique, the table's primary-key invariant),
get_generation_by_id(record id, B) returns absent, delete_generation(record
id, B) returns false and leaves the table unchanged, and any record returned
by get_generation_by_id matches both the requested id and the requesting
user id. -/
theorem c1_ownership_isolation (db : List GenRecord) (r : GenRecord) (A B : Nat)
    (hmem : r ∈ db) (hA : r.user_id = A) (hBA : B ≠ A)
    (hids : (db.map GenRecord.id).Nodup) :
    get_generation_by_id db r.id B = none ∧
    delete_generation db r.id B = (db, false) ∧
    (∀ (db2 : List GenRecord) (g u : Nat) (rec : GenRecord),
      get_generation_by_id db2 g u = some rec → rec.id = g ∧ rec.user_id = u) := by
  subst hA
  have hkey : ∀ x ∈ db, (x.id == r.id && x.user_id == B) = false := by
    intro x hx
    by_cases hid : x.id = r.id
    · have hxr : x = r := List.inj_on_of_nodup_map hids hx hmem hid
      subst hxr
      have hx2 : (x.user_id == B) = false := by
        simp only [beq_eq_false_iff_ne]
        exact fun h => hBA h.symm
      simp [hx2]
    · simp [hid]
  refine ⟨?_, ?_, ?_⟩
  · rw [get_generation_by_id]
    exact List.find?_eq_none.mpr (fun x hx => by simp [hkey x hx])
  · rw [delete_generation]
    have h1 : db.filter (fun x => !(x.id == r.id && x.user_id == B)) = db := by
      apply List.filter_eq_self.mpr
      intro x hx
      simp [hkey x hx]
    have h2 : (db.any (fun x => x.id == r.id && x.user_id == B)) = false := by
      apply List.any_eq_false.mpr
      intro x hx
      simp [hkey x hx]
    rw [h1, h2]
  · intro db2 g u rec h
    rw [get_generation_by_id] at h
    have h3 := List.find?_some h
    simp at h3
    exact h3

/-- C1 witness: in a concrete two-row table, user 20 can neither fetch nor
delete user 10's record 1. -/
theorem c1_witness :
    get_generation_by_id c1db c1ra.id 20 = none ∧
    delete_generation c1db c1ra.id 20 = (c1db, false) ∧
    (∀ (db2 : List GenRecord) (g u : Nat) (rec : GenRecord),
      get_generation_by_id db2 g u = some rec → rec.id = g ∧ rec.user_id = u) :=
  c1_ownership_isolation c1db c1ra 10 20 (List.mem_cons_self c1ra [c1rb]) rfl
    (by decide) (by decide)

/-- C4 counterexample: a token signed with the configured secret, unexpired,
whose sub claim is the string abc, makes decode_access_token raise ValueError
(int("abc") is not caught by the except-JWTError handler), so decoding does
not return the uniform invalid result None on every failure. -/
theorem c4_counterexample :
    decode_access_token JWT_SECRET_KEY 0 c4token = .error "ValueError" := rfl

/-- C4 amended: decode_access_token returns the user id on success and the
uniform None on every jose failure (bad signature, malformed token, expired,
non-string subject) and on a missing subject claim; the single exception is a
validly decoded token whose string subject is not an integer literal, where
int() raises ValueError, which propagates to the caller. -/
theorem c4_uniform_invalid (key : String) (now : Int) (t : Token) :
    (∃ s, jlookup t.payload "sub" = some (.str s) ∧ pyInt? s = none ∧
      decode_access_token key now t = .error "ValueError") ∨
    (∃ n, decode_access_token key now t = .ok (some n)) ∨
    decode_access_token key now t = .ok none := by
  cases hj : jwtDecode t key now with
  | error u =>
    right; right
    rw [decode_access_token, hj]
  | ok pl =>
    obtain ⟨hpl, hsub⟩ := jwtDecode_ok_payload t key now pl hj
    subst hpl
    have hsub2 : (match jlookup t.payload "sub" with
      | some (.str _) => true
      | some _ => false
      | none => true) = true := hsub
    cases hs : jlookup t.payload "sub" with
    | none =>
      right; right
      rw [decode_access_token, hj]
      simp [hs]
    | some j =>
      rw [hs] at hsub2
      cases j with
      | str s =>
        cases hp : pyInt? s with
        | none =>
          left
          exact ⟨s, rfl, hp, by rw [decode_access_token, hj]; simp [hs, hp]⟩
        | some n =>
          right; left
          exact ⟨n, by rw [decode_access_token, hj]; simp [hs, hp]⟩
      | null => simp at hsub2
      | bool b => simp at hsub2
      | num n2 => simp at hsub2
      | arr xs => simp at hsub2
      | obj kvs => simp at hsub2

/-- C5 counterexample: on a stored hash in no recognizable format,
verify_password propagates passlib's UnknownHashError instead of returning
false. -/
theorem c5_counterexample :
    verify_password "secret" (.malformed "not-a-hash") = .error "UnknownHashError" := rfl

/-- C5 amended: for every plaintext and every well-formed stored bcrypt hash,
verify_password returns a boolean and never raises (mismatch included); on a
malformed stored hash it raises UnknownHashError rather than returning a
no-match boolean, and the caller must treat that as no match. -/
theorem c5_total_on_wellformed (plain pw : String) (salt : Nat) (text : String) :
    (∃ b : Bool, verify_password plain (hash_password salt pw) = .ok b) ∧
    (∀ e : String, verify_password plain (hash_password salt pw) ≠ .error e) ∧
    verify_password plain (.malformed text) = .error "UnknownHashError" := by
  refine ⟨⟨bcryptInput plain == bcryptInput pw, rfl⟩, ?_, rfl⟩
  intro e h
  simp [verify_password, hash_password] at h

/-- C9 counterexample: two distinct 73-character passwords sharing their
first 72 UTF-8 bytes verify against each other's hash, because bcrypt under
passlib's defaults silently truncates the password to 72 bytes; so a
different plaintext does not always verify false. -/
theorem c9_counterexample :
    c9p ≠ c9q ∧ verify_password c9q (hash_password 0 c9p) = .ok true := by
  exact ⟨by decide, rfl⟩

/-- C9 amended: for every password of length at least 6, hashing then
verifying the original plaintext succeeds; and verifying a different
plaintext fails whenever the two plaintexts differ within the first 72 bytes
of their UTF-8 encodings (bcrypt's truncation boundary). -/
theorem c9_password_roundtrip (p q : String) (salt : Nat)
    (hlen : 6 ≤ p.length)
    (hdiff : bcryptInput q ≠ bcryptInput p) :
    verify_password p (hash_password salt p) = .ok true ∧
    verify_password q (hash_password salt p) = .ok false := by
  constructor
  · show Except.ok (bcryptInput p == bcryptInput p) = Except.ok true
    rw [beq_self_eq_true]
  · show Except.ok (bcryptInput q == bcryptInput p) = Except.ok false
    rw [beq_eq_false_iff_ne.mpr hdiff]

/-- C9 witness: the round trip at a concrete short password pair. -/
theorem c9_witness :
    verify_password "password" (hash_password 3 "password") = .ok true ∧
    verify_password "different" (hash_password 3 "password") = .ok false :=
  c9_password_roundtrip "password" "different" 3 (by decide) (by decide)

/-- C8: create_access_token returns expires_in exactly 86400; decoding the
fresh token at creation time under the same secret returns the user id; any
well-formed-or-not token whose numeric expiry claim is in the past decodes to
the uniform invalid result; and decoding the fresh token under a different
secret also yields the invalid result. -/
theorem c8_token_validity (key key2 : String) (now : Int) (u : Int)
    (t2 : Token) (e : Int)
    (hk : key2 ≠ key)
    (hexp : jlookup t2.payload "exp" = some (.num e))
    (hpast : e < now) :
    (create_access_token key now u).2 = 86400 ∧
    decode_access_token key now (create_access_token key now u).1 = .ok (some u) ∧
    decode_access_token key now t2 = .ok none ∧
    decode_access_token key2 now (create_access_token key now u).1 = .ok none := by
  refine ⟨rfl, decode_create key now u,
    decode_token_expired key now t2 e hexp hpast, ?_⟩
  exact decode_wrong_key key2 now (create_access_token key now u).1
    (fun h => hk h.symm)

/-- C8 witness: user id 42, the development secret, a concrete expired token,
and a concrete different secret. -/
theorem c8_witness :
    (create_access_token JWT_SECRET_KEY 1000000 42).2 = 86400 ∧
    decode_access_token JWT_SECRET_KEY 1000000
      (create_access_token JWT_SECRET_KEY 1000000 42).1 = .ok (some 42) ∧
    decode_access_token JWT_SECRET_KEY 1000000 c8expired = .ok none ∧
    decode_access_token "other-secret" 1000000
      (create_access_token JWT_SECRET_KEY 1000000 42).1 = .ok none :=
  c8_token_validity JWT_SECRET_KEY "other-secret" 1000000 42 c8expired 5
    (by decide) rfl (by decide)

theorem parseValidate_sample : parseValidate (some sampleBundleJson) = .ok sampleBundle := rfl

/-- C2: when the request reaches the model (some files, at least one usable
image) and the primary response fails JSON parsing or schema validation,
generate issues exactly one repair call; if the repair response validates the
endpoint returns 200 with that bundle, and if it fails too the endpoint
returns 500 with a detail embedding the validation error description. -/
theorem c2_schema_repair (m : Nat) (p r : Option Json) (sf : Bool) (ms1 ms2 : Nat)
    (lang : Lang) (files : List UploadFile) (hint : Option String) (cu : Option Nat)
    (e : String)
    (hne : files.isEmpty = false)
    (hone : 1 ≤ ((files.take m).filter nonemptyFile).length)
    (hfail : parseValidate p = .error e) :
    (generate m p r sf ms1 ms2 lang files hint cu).repairCalls = 1 ∧
    (∀ b : ListingBundle, parseValidate r = .ok b →
      (generate m p r sf ms1 ms2 lang files hint cu).status = 200 ∧
      (generate m p r sf ms1 ms2 lang files hint cu).bundle = some b) ∧
    (∀ e2 : String, parseValidate r = .error e2 →
      (generate m p r sf ms1 ms2 lang files hint cu).status = 500 ∧
      (generate m p r sf ms1 ms2 lang files hint cu).detail =
        some ("Model output validation failed: " ++ e2)) := by
  refine ⟨?_, ?_, ?_⟩
  · cases hr : parseValidate r with
    | ok b =>
      rw [generate_repair_ok m p r sf ms1 ms2 lang files hint cu e b hne hone hfail hr]
    | error e2 =>
      rw [generate_repair_fail m p r sf ms1 ms2 lang files hint cu e e2 hne hone hfail hr]
  · intro b hb
    rw [generate_repair_ok m p r sf ms1 ms2 lang files hint cu e b hne hone hfail hb]
    exact ⟨rfl, rfl⟩
  · intro e2 he2
    rw [generate_repair_fail m p r sf ms1 ms2 lang files hint cu e e2 hne hone hfail he2]
    exact ⟨rfl, rfl⟩

/-- C2 witness: a primary response that is not valid JSON followed by a
schema-conforming repair response, on one non-empty image. -/
theorem c2_witness :
    (generate 8 none (some sampleBundleJson) false 3 4 .ru [fileA] none
      (some 1)).repairCalls = 1 ∧
    (∀ b : ListingBundle, parseValidate (some sampleBundleJson) = .ok b →
      (generate 8 none (some sampleBundleJson) false 3 4 .ru [fileA] none
        (some 1)).status = 200 ∧
      (generate 8 none (some sampleBundleJson) false 3 4 .ru [fileA] none
        (some 1)).bundle = some b) ∧
    (∀ e2 : String, parseValidate (some sampleBundleJson) = .error e2 →
      (generate 8 none (some sampleBundleJson) false 3 4 .ru [fileA] none
        (some 1)).status = 500 ∧
      (generate 8 none (some sampleBundleJson) false 3 4 .ru [fileA] none
        (some 1)).detail = some ("Model output validation failed: " ++ e2)) :=
  c2_schema_repair 8 none (some sampleBundleJson) false 3 4 .ru [fileA] none (some 1)
    "Expecting value: line 1 column 1 (char 0)" rfl (by decide) rfl

/-- C3: for an authenticated request whose AI result validates (on the
primary or the repair path), a save_generation failure is swallowed: the
outcome with persistence raising has the same observable response as the
outcome with persistence succeeding, the status is 200 with the validated
bundle, the save was attempted exactly once, and nothing was stored. -/
theorem c3_best_effort (m : Nat) (p r : Option Json) (ms1 ms2 : Nat)
    (lang : Lang) (files : List UploadFile) (hint : Option String) (uid : Nat)
    (b : ListingBundle)
    (hne : files.isEmpty = false)
    (hone : 1 ≤ ((files.take m).filter nonemptyFile).length)
    (hval : parseValidate p = .ok b ∨
      (∃ e, parseValidate p = .error e) ∧ parseValidate r = .ok b) :
    (generate m p r true ms1 ms2 lang files hint (some uid)).response =
      (generate m p r false ms1 ms2 lang files hint (some uid)).response ∧
    (generate m p r true ms1 ms2 lang files hint (some uid)).status = 200 ∧
    (generate m p r true ms1 ms2 lang files hint (some uid)).bundle = some b ∧
    (generate m p r true ms1 ms2 lang files hint (some uid)).saveCalls.length = 1 ∧
    (generate m p r true ms1 ms2 lang files hint (some uid)).saved = [] := by
  rcases hval with hok | ⟨⟨e, hfail⟩, hok2⟩
  · rw [generate_primary_ok m p r true ms1 ms2 lang files hint (some uid) b hne hone hok,
      generate_primary_ok m p r false ms1 ms2 lang files hint (some uid) b hne hone hok]
    exact ⟨rfl, rfl, rfl, rfl, rfl⟩
  · rw [generate_repair_ok m p r true ms1 ms2 lang files hint (some uid) e b hne hone
      hfail hok2,
      generate_repair_ok m p r false ms1 ms2 lang files hint (some uid) e b hne hone
      hfail hok2]
    exact ⟨rfl, rfl, rfl, rfl, rfl⟩

/-- C3 witness: an authenticated request with one non-empty image and a
valid primary response, with the persistence layer raising. -/
theorem c3_witness :
    (generate 8 (some sampleBundleJson) none true 3 4 .ru [fileA] none
      (some 1)).response =
      (generate 8 (some sampleBundleJson) none false 3 4 .ru [fileA] none
        (some 1)).response ∧
    (generate 8 (some sampleBundleJson) none true 3 4 .ru [fileA] none
      (some 1)).status = 200 ∧
    (generate 8 (some sampleBundleJson) none true 3 4 .ru [fileA] none
      (some 1)).bundle = some sampleBundle ∧
    (generate 8 (some sampleBundleJson) none true 3 4 .ru [fileA] none
      (some 1)).saveCalls.length = 1 ∧
    (generate 8 (some sampleBundleJson) none true 3 4 .ru [fileA] none
      (some 1)).saved = [] :=
  c3_best_effort 8 (some sampleBundleJson) none 3 4 .ru [fileA] none 1 sampleBundle
    rfl (by decide) (.inl parseValidate_sample)

/-- C7 counterexample: with MAX_IMAGES = 8 and nine uploaded files whose
first file is zero-byte, the persisted image_count is 8 while only 7 images
were actually sent to the model, so the persisted count does not reflect the
images actually sent. -/
theorem c7_counterexample :
    ((generate MAX_IMAGES (some sampleBundleJson) none false 3 4 .ru c7files none
      (some 1)).saved.map (fun a => a.image_count)) = [8] ∧
    (generate MAX_IMAGES (some sampleBundleJson) none false 3 4 .ru c7files none
      (some 1)).imagesSent = 7 ∧
    (8 : Nat) ≠ 7 := ⟨rfl, rfl, by decide⟩

/-- C7 amended: when more than MAX_IMAGES files are uploaded, generate
behaves exactly as if only the first MAX_IMAGES files had been uploaded (the
excess is silently dropped, no error); every persisted record carries
image_count = MAX_IMAGES — the truncated count, not the original upload
count — and filenames captured after truncation; at most MAX_IMAGES images
are sent to the model, and the persisted count equals the number actually
sent when every truncated file is non-empty. -/
theorem c7_image_cap (m : Nat) (p r : Option Json) (sf : Bool) (ms1 ms2 : Nat)
    (lang : Lang) (files : List UploadFile) (hint : Option String) (cu : Option Nat)
    (hm : 1 ≤ m) (hover : m < files.length) :
    generate m p r sf ms1 ms2 lang files hint cu =
      generate m p r sf ms1 ms2 lang (files.take m) hint cu ∧
    (∀ a ∈ (generate m p r sf ms1 ms2 lang files hint cu).saveCalls,
      a.image_count = m ∧ a.image_count ≠ files.length ∧
      a.image_filenames = captureFilenames (files.take m)) ∧
    (generate m p r sf ms1 ms2 lang files hint cu).imagesSent ≤ m ∧
    ((files.take m).all nonemptyFile = true →
      ∀ a ∈ (generate m p r sf ms1 ms2 lang files hint cu).saveCalls,
        a.image_count = (generate m p r sf ms1 ms2 lang files hint cu).imagesSent) := by
  have hne : files.isEmpty = false := by
    cases files with
    | nil => simp at hover
    | cons f fs => rfl
  have hlen : (files.take m).length = m := by
    rw [List.length_take]
    omega
  refine ⟨generate_take m p r sf ms1 ms2 lang files hint cu hm hne, ?_, ?_, ?_⟩
  · intro a ha
    obtain ⟨h1, h2⟩ := generate_saveCalls_shape m p r sf ms1 ms2 lang files hint cu a ha
    refine ⟨by rw [h1, hlen], by rw [h1, hlen]; omega, h2⟩
  · rw [generate_imagesSent m p r sf ms1 ms2 lang files hint cu hne]
    calc ((files.take m).filter nonemptyFile).length
        ≤ (files.take m).length := List.length_filter_le _ _
      _ = m := hlen
  · intro hall a ha
    obtain ⟨h1, _⟩ := generate_saveCalls_shape m p r sf ms1 ms2 lang files hint cu a ha
    rw [generate_imagesSent m p r sf ms1 ms2 lang files hint cu hne, h1]
    rw [List.filter_eq_self.mpr (fun x hx => List.all_eq_true.mp hall x hx)]

/-- C7 witness: nine non-empty uploads against the cap of 8. -/
theorem c7_witness :
    generate 8 (some sampleBundleJson) none false 3 4 .ru (List.replicate 9 fileA)
      none (some 1) =
      generate 8 (some sampleBundleJson) none false 3 4 .ru
        ((List.replicate 9 fileA).take 8) none (some 1) ∧
    (∀ a ∈ (generate 8 (some sampleBundleJson) none false 3 4 .ru
        (List.replicate 9 fileA) none (some 1)).saveCalls,
      a.image_count = 8 ∧ a.image_count ≠ (List.replicate 9 fileA).length ∧
      a.image_filenames = captureFilenames ((List.replicate 9 fileA).take 8)) ∧
    (generate 8 (some sampleBundleJson) none false 3 4 .ru (List.replicate 9 fileA)
      none (some 1)).imagesSent ≤ 8 ∧
    (((List.replicate 9 fileA).take 8).all nonemptyFile = true →
      ∀ a ∈ (generate 8 (some sampleBundleJson) none false 3 4 .ru
          (List.replicate 9 fileA) none (some 1)).saveCalls,
        a.image_count = (generate 8 (some sampleBundleJson) none false 3 4 .ru
          (List.replicate 9 fileA) none (some 1)).imagesSent) :=
  c7_image_cap 8 (some sampleBundleJson) none false 3 4 .ru (List.replicate 9 fileA)
    none (some 1) (by decide) (by decide)

/-- C10: for an authenticated request whose primary response validates and
with at least one usable image among the first MAX_IMAGES files, exactly one
record is persisted; its image_count is the number of files after truncation
and its image_filenames are exactly those files' names with the positional
fallback; the images actually sent to the model are only the non-empty ones
among the truncated files, which is at most (and can be less than)
image_count. -/
theorem c10_persisted_count (m : Nat) (p r : Option Json) (ms1 ms2 : Nat)
    (lang : Lang) (files : List UploadFile) (hint : Option String) (uid : Nat)
    (b : ListingBundle)
    (hone : 1 ≤ ((files.take m).filter nonemptyFile).length)
    (hok : parseValidate p = .ok b) :
    (generate m p r false ms1 ms2 lang files hint (some uid)).saved =
      [⟨uid, lang.toStr, hint, (files.take m).length, captureFilenames (files.take m),
        bundleToJson b, b.universal.product_type, b.universal.brand, ms1⟩] ∧
    (generate m p r false ms1 ms2 lang files hint (some uid)).imagesSent =
      ((files.take m).filter nonemptyFile).length ∧
    (generate m p r false ms1 ms2 lang files hint (some uid)).imagesSent ≤
      (files.take m).length := by
  have hne : files.isEmpty = false := by
    cases files with
    | nil => simp at hone
    | cons f fs => rfl
  rw [generate_primary_ok m p r false ms1 ms2 lang files hint (some uid) b hne hone hok]
  exact ⟨rfl, rfl, List.length_filter_le _ _⟩

/-- C10 witness: one zero-byte file plus one non-empty file, authenticated:
the persisted image_count is 2 with both filenames recorded (the zero-byte
file under its positional fallback name), while only 1 image was sent. -/
theorem c10_witness :
    (generate 8 (some sampleBundleJson) none false 3 4 .ru [fileEmpty, fileA] none
      (some 1)).saved =
      [⟨1, Lang.toStr .ru, none, ([fileEmpty, fileA].take 8).length,
        captureFilenames ([fileEmpty, fileA].take 8), bundleToJson sampleBundle,
        sampleBundle.universal.product_type, sampleBundle.universal.brand, 3⟩] ∧
    (generate 8 (some sampleBundleJson) none false 3 4 .ru [fileEmpty, fileA] none
      (some 1)).imagesSent =
      (([fileEmpty, fileA].take 8).filter nonemptyFile).length ∧
    (generate 8 (some sampleBundleJson) none false 3 4 .ru [fileEmpty, fileA] none
      (some 1)).imagesSent ≤ ([fileEmpty, fileA].take 8).length :=
  c10_persisted_count 8 (some sampleBundleJson) none 3 4 .ru [fileEmpty, fileA]
    none 1 sampleBundle (by decide) parseValidate_sample

/-- C6: for page at least 1 and limit between 1 and 100, the history endpoint
returns the caller's records sorted newest created_at first, skipping
(page - 1) * limit records and returning at most limit of them, with total
equal to the count of all records owned by that user, every returned record
owned by the caller, and the page and limit echoed. -/
theorem c6_pagination (db : List GenRecord) (uid page limit : Nat)
    (hp : 1 ≤ page) (hl1 : 1 ≤ limit) (hl2 : limit ≤ 100) :
    ∃ resp, list_history db uid page limit = some resp ∧
      resp.total = (db.filter (fun x => x.user_id == uid)).length ∧
      resp.items =
        (((db.filter (fun x => x.user_id == uid)).insertionSort newerFirst).drop
          ((page - 1) * limit)).take limit ∧
      resp.items.Pairwise newerFirst ∧
      resp.items.length ≤ limit ∧
      (∀ x ∈ resp.items, x.user_id = uid) ∧
      resp.page = page ∧ resp.limit = limit := by
  rw [list_history, if_pos (⟨hp, hl1, hl2⟩ : 1 ≤ page ∧ 1 ≤ limit ∧ limit ≤ 100)]
  refine ⟨_, rfl, rfl, rfl, ?_, ?_, ?_, rfl, rfl⟩
  · have hs : List.Pairwise newerFirst
        ((db.filter (fun x => x.user_id == uid)).insertionSort newerFirst) :=
      List.sorted_insertionSort newerFirst _
    exact hs.sublist ((List.take_sublist _ _).trans (List.drop_sublist _ _))
  · exact List.length_take_le _ _
  · intro x hx
    have h1 : x ∈ (db.filter (fun y => y.user_id == uid)).insertionSort newerFirst :=
      List.mem_of_mem_drop (List.mem_of_mem_take hx)
    have h2 : x ∈ db.filter (fun y => y.user_id == uid) :=
      (List.perm_insertionSort newerFirst _).subset h1
    have h3 := (List.mem_filter.mp h2).2
    simpa using h3

/-- C6 witness: with 25 records for user 7, page 2 and limit 10 skip the 10
newest and return the next 10, with total 25. -/
theorem c6_witness :
    ∃ resp, list_history db25 7 2 10 = some resp ∧
      resp.total = (db25.filter (fun x => x.user_id == 7)).length ∧
      resp.items =
        (((db25.filter (fun x => x.user_id == 7)).insertionSort newerFirst).drop
          ((2 - 1) * 10)).take 10 ∧
      resp.items.Pairwise newerFirst ∧
      resp.items.length ≤ 10 ∧
      (∀ x ∈ resp.items, x.user_id = 7) ∧
      resp.page = 2 ∧ resp.limit = 10 :=
  c6_pagination db25 7 2 10 (by decide) (by decide) (by decide)

end ProductListing
